import Mathlib

/-!
Shallow embedding of the EXIF metadata extractor of
`VITISCANPRO-Public/WebUI_Streamlit` (`src/app.py`), centred on
`get_exif_data` (lines 60-87), the module constant `NOW` (line 47) and the
map branch of `main` (lines 248-261).

Modelling conventions:
* Python floats are modelled as exact rationals (`ℚ`); the IEEE rounding of
  `int(d) + int(m)/60 + int(s)/3600` is far below the 1e-6 tolerances the
  spec states.
* Python variables that the caller tests against `None` (`lon`, `lat`) are
  embedded as `Option ℚ`; the source only ever assigns float values to them,
  which the theorems below make explicit.
* Exceptions are modelled with `Except`: a raised exception carries the
  variable state at the raise point, because the enclosing
  `try ... except: pass` of `get_exif_data` returns whatever the local
  variables hold when the exception fires.
* An EXIF dictionary is a list of `(tag, value)` pairs in dict iteration
  order (CPython dicts iterate in insertion order); Python dict keys are
  unique, which theorems assume only where it matters.
* The GPS block value is a mapping from sub-keys to entries.  An entry is
  either an arity-3 sequence of components (each a number, on which Python's
  `int()` truncates toward zero, or a non-numeric value on which `int()`
  raises) or an atomic value on which the unpacking
  `degre,minute,seconde = value[k]` raises.  Exotic iterables such as
  3-character digit strings, which CPython would also unpack, are outside
  the model; no claim concerns them.
-/

/-- Calendar date (year, month, day); the wall-clock date from which the
module-level constant `NOW` of `src/app.py` line 47 is formatted. -/
structure PDate where
  year : ℕ
  month : ℕ
  day : ℕ
deriving DecidableEq

/-- Zero-pad a numeral to two digits, as `strftime` does for the fields
`%m %d %H %M %S`. -/
def pad2 (n : ℕ) : String :=
  if n < 10 then "0" ++ toString n else toString n

/-- Zero-pad a numeral to four digits, as `strftime` does for `%Y`. -/
def pad4 (n : ℕ) : String :=
  if n < 10 then "000" ++ toString n
  else if n < 100 then "00" ++ toString n
  else if n < 1000 then "0" ++ toString n
  else toString n

/-- `NOW = datetime.now().strftime("%Y-%m-%d")` (src/app.py line 47):
the processing date formatted `YYYY-MM-DD`, computed once at module load. -/
def NOW_of (d : PDate) : String :=
  pad4 d.year ++ "-" ++ pad2 d.month ++ "-" ++ pad2 d.day

/-- Structured date-time value, the result of a successful
`datetime.strptime(value, "%Y:%m:%d %H:%M:%S")`. -/
structure DT where
  year : ℕ
  month : ℕ
  day : ℕ
  hour : ℕ
  minute : ℕ
  second : ℕ
deriving DecidableEq

/-- Gregorian leap-year test, as used by `datetime` for day-of-month
validation. -/
def isLeap (y : ℕ) : Bool :=
  y % 4 = 0 && (y % 100 ≠ 0 || y % 400 = 0)

/-- Number of days of month `m` of year `y` (`datetime` validation). -/
def daysInMonth (y m : ℕ) : ℕ :=
  if m = 2 then (if isLeap y then 29 else 28)
  else if m = 4 ∨ m = 6 ∨ m = 9 ∨ m = 11 then 30
  else 31

/-- Maximal digit prefix of a character list, with the rest. -/
def takeDigits : List Char → List Char × List Char
  | [] => ([], [])
  | c :: cs =>
    if c.isDigit then
      let p := takeDigits cs
      (c :: p.1, p.2)
    else ([], c :: cs)

/-- Numeric value of a digit list (most significant first). -/
def digitsVal (l : List Char) : ℕ :=
  l.foldl (fun a c => 10 * a + (c.toNat - 48)) 0

/-- Parse a 1- or 2-digit numeric field whose value must lie in `[lo, hi]`,
mirroring the CPython `_strptime` regexes for `%m %d %H %M %S`: they accept
one or two digits bounded by the field range.  Because every field of the
format `"%Y:%m:%d %H:%M:%S"` is followed by a non-digit separator or the end
of the string, the whole maximal digit run must be consumed by the field,
so the regex backtracking collapses to this deterministic reading. -/
def parse2 (lo hi : ℕ) (cs : List Char) : Option (ℕ × List Char) :=
  let p := takeDigits cs
  if p.1.length = 0 ∨ 2 < p.1.length then none
  else
    let v := digitsVal p.1
    if lo ≤ v ∧ v ≤ hi then some (v, p.2) else none

/-- Parse the `%Y` field: exactly four digits (CPython regex), and
`datetime` additionally requires `year ≥ MINYEAR = 1`. -/
def parse4 (cs : List Char) : Option (ℕ × List Char) :=
  let p := takeDigits cs
  if p.1.length = 4 ∧ 1 ≤ digitsVal p.1 then some (digitsVal p.1, p.2) else none

/-- Consume a literal colon of the format string. -/
def expectColon : List Char → Option (List Char)
  | ':' :: r => some r
  | _ => none

/-- Whitespace as matched by Python's regex class `\s`. -/
def isPyWs (c : Char) : Bool :=
  c = ' ' ∨ c = '\t' ∨ c = '\n' ∨ c = '\r' ∨ c.toNat = 11 ∨ c.toNat = 12

/-- Consume the literal space of the format string; `_strptime` rewrites
whitespace in the format to the regex `\s+` (one or more). -/
def skipWs1 : List Char → Option (List Char)
  | [] => none
  | c :: r => if isPyWs c then some (r.dropWhile isPyWs) else none

/-- Model of `datetime.strptime(value, "%Y:%m:%d %H:%M:%S")` followed by the
`datetime` constructor validation: field ranges, exact-four-digit year of at
least 1, day validated against the month length, and the whole string must
be consumed.  The `%S` regex also admits the leap seconds 60 and 61, which
the `datetime` constructor then rejects; both outcomes are an exception,
observationally the same failure, so the model bounds seconds by 59. -/
def strptime_exif (s : String) : Option DT := do
  let cs0 := s.toList
  let (y, cs1) ← parse4 cs0
  let cs2 ← expectColon cs1
  let (mo, cs3) ← parse2 1 12 cs2
  let cs4 ← expectColon cs3
  let (d, cs5) ← parse2 1 31 cs4
  let cs6 ← skipWs1 cs5
  let (h, cs7) ← parse2 0 23 cs6
  let cs8 ← expectColon cs7
  let (mi, cs9) ← parse2 0 59 cs8
  let cs10 ← expectColon cs9
  let (se, cs11) ← parse2 0 59 cs10
  if cs11 = [] ∧ d ≤ daysInMonth y mo then
    some ⟨y, mo, d, h, mi, se⟩
  else none

/-- Model of `dt.strftime("%Y-%m-%d %H:%M:%S")` (src/app.py line 77). -/
def formatDT (t : DT) : String :=
  pad4 t.year ++ "-" ++ pad2 t.month ++ "-" ++ pad2 t.day ++ " " ++
    pad2 t.hour ++ ":" ++ pad2 t.minute ++ ":" ++ pad2 t.second

/-- Component of a GPS sexagesimal entry: a numeric value (int, float or
rational, all collapsed into `ℚ`), or a value on which `int()` raises. -/
inductive GpsComp where
  | num (q : ℚ)
  | bad
deriving DecidableEq

/-- Entry of the GPS block mapping: an arity-3 sequence of components (the
shape `degre,minute,seconde = value[k]` unpacks), or an atomic value (such
as the hemisphere letters held as strings) on which the unpacking raises. -/
inductive GpsEntry where
  | triple (d m s : GpsComp)
  | scalar (s : String)
deriving DecidableEq

/-- Value stored under one EXIF tag: the nested GPS mapping under tag 34853,
a string (the shape `DateTimeOriginal` holds), or any other value. -/
inductive TagVal where
  | gps (g : List (ℕ × GpsEntry))
  | str (s : String)
  | other
deriving DecidableEq

/-- Input of `get_exif_data`, as seen after `Image.open(image)` and
`img._getexif()`: either one of those calls raises (`notImage`, covering
non-image blobs and truncated files), or they yield an optional EXIF
dictionary. -/
inductive ImageInput where
  | notImage
  | image (exif : Option (List (ℕ × TagVal)))
deriving DecidableEq

/-- Lookup of sub-key `k` in the GPS block mapping (`value[k]`). -/
def lookupKey (k : ℕ) : List (ℕ × GpsEntry) → Option GpsEntry
  | [] => none
  | (k', e) :: r => if k' = k then some e else lookupKey k r

/-- Python's `int()` on a number: truncation toward zero. -/
def pyInt (q : ℚ) : ℤ :=
  q.num.tdiv q.den

/-- `int()` on one GPS component: truncates a number, raises otherwise. -/
def compInt : GpsComp → Option ℤ
  | .num q => some (pyInt q)
  | .bad => none

/-- Decode one GPS entry into decimal degrees:
`int(degre) + int(minute)/60 + int(seconde)/3600` (src/app.py lines 71, 73);
`none` when the unpacking or one of the `int()` calls raises. -/
def decodeEntry : GpsEntry → Option ℚ
  | .triple a b c =>
    match compInt a, compInt b, compInt c with
    | some x, some y, some z => some ((x : ℚ) + (y : ℚ) / 60 + (z : ℚ) / 3600)
    | _, _, _ => none
  | .scalar _ => none

/-- Decode the GPS entry at sub-key `k`: `value[k]` lookup (KeyError when
absent) followed by unpacking and conversion. -/
def decodeAt (g : List (ℕ × GpsEntry)) (k : ℕ) : Option ℚ :=
  (lookupKey k g).bind decodeEntry

/-- Local variables of `get_exif_data` that survive to the `return`
statement. -/
structure GeoState where
  lon : Option ℚ
  lat : Option ℚ
  date : String
deriving DecidableEq

/-- The `GPSInfo` branch (src/app.py lines 69-73).  `value[2]` is looked up,
unpacked and converted first and assigned to `lat`; only then is `value[4]`
processed for `lon`.  An error carries the state at the raise point: in
particular a failure at sub-key 4 leaves the already-assigned latitude in
place. -/
def processGps (s : GeoState) (v : TagVal) : Except GeoState GeoState :=
  match v with
  | .gps g =>
    match decodeAt g 2 with
    | none => .error s
    | some q2 =>
      match decodeAt g 4 with
      | none => .error { s with lat := some q2 }
      | some q4 => .ok { s with lat := some q2, lon := some q4 }
  | _ => .error s

/-- The `DateTimeOriginal` branch (src/app.py lines 74-81): the inner
`try/except: pass` absorbs every parse failure (including the `TypeError`
of `strptime` on a non-string value), keeping the current date. -/
def processDate (s : GeoState) (v : TagVal) : GeoState :=
  match v with
  | .str d =>
    match strptime_exif d with
    | some dt => { s with date := formatDT dt }
    | none => s
  | _ => s

/-- The `for tag, value in exif.items()` loop (src/app.py lines 67-81).
`ExifTags.TAGS` decodes tag 34853 to `"GPSInfo"` and tag 36867 to
`"DateTimeOriginal"`, and no other tag id decodes to either name, so the
string comparisons are tag-id comparisons.  An exception in the GPS branch
escapes the loop with the variable state at the raise point. -/
def runTags : GeoState → List (ℕ × TagVal) → Except GeoState GeoState
  | s, [] => .ok s
  | s, (t, v) :: rest =>
    if t = 34853 then
      match processGps s v with
      | .ok s' => runTags s' rest
      | .error s' => .error s'
    else if t = 36867 then
      runTags (processDate s v) rest
    else
      runTags s rest

/-- Collapse of the outer `try ... except Exception: pass` (src/app.py
lines 62, 84-86): whether or not an exception fired, the function falls
through to `return (lon,lat,date)` with the current variable values. -/
def settle : Except GeoState GeoState → GeoState
  | .ok s => s
  | .error s => s

/-- `get_exif_data` (src/app.py lines 60-87), parameterised by the string
the module constant `NOW` holds.  The defaults `lon,lat,date = 0.0, 0.0,
NOW` are assigned before anything can raise; an undecodable image or a
missing/empty EXIF dictionary leaves them untouched (an empty dict is falsy
in `if exif:`, and iterating it changes nothing, so both readings agree). -/
def get_exif_data (NOW : String) (inp : ImageInput) : Option ℚ × Option ℚ × String :=
  let s0 : GeoState := ⟨some 0, some 0, NOW⟩
  let s1 : GeoState :=
    match inp with
    | .notImage => s0
    | .image none => s0
    | .image (some entries) => settle (runTags s0 entries)
  (s1.lon, s1.lat, s1.date)

/-- `get_exif_data` as called at some wall-clock date `callDate`: the source
closes over the module-level `NOW` (src/app.py line 47), computed once when
the module is loaded, and never reads the clock at call time, so `callDate`
is unused. -/
def get_exif_data_at (moduleDate _callDate : PDate) (inp : ImageInput) :
    Option ℚ × Option ℚ × String :=
  get_exif_data (NOW_of moduleDate) inp

/-- Outcome of the map column of `main` (src/app.py lines 248-261). -/
inductive MapView where
  | parcelMap (lat lon : ℚ)
  | noLocationWarning
deriving DecidableEq

/-- The map branch of `main` (src/app.py lines 248-261): unpack the result
of `get_exif_data`; when `lon is not None and lat is not None`, render a
folium map centred and marked at `[lat, lon]`, else show the warning
`"Aucune donnée de localisation trouvée dans l'image."`. -/
def map_section (NOW : String) (inp : ImageInput) : MapView :=
  match get_exif_data NOW inp with
  | (some lon, some lat, _) => .parcelMap lat lon
  | _ => .noLocationWarning

/-! ### Helper lemmas about the embedding -/

theorem pyInt_natCast (n : ℕ) : pyInt (n : ℚ) = (n : ℤ) := by
  simp [pyInt]

theorem pyInt_intCast (x : ℤ) : pyInt (x : ℚ) = x := by
  simp [pyInt]

theorem pyInt_nonneg {q : ℚ} (h : 0 ≤ q) : 0 ≤ pyInt q :=
  Int.tdiv_nonneg (Rat.num_nonneg.mpr h) (Int.ofNat_nonneg _)

theorem NOW_of_ne_empty (d : PDate) : NOW_of d ≠ "" := by
  intro h
  have hl : (NOW_of d).length = 0 := by rw [h]; rfl
  have h1 : ("-" : String).length = 1 := rfl
  simp only [NOW_of, String.length_append, h1] at hl
  omega

theorem formatDT_ne_empty (t : DT) : formatDT t ≠ "" := by
  intro h
  have hl : (formatDT t).length = 0 := by rw [h]; rfl
  have h1 : ("-" : String).length = 1 := rfl
  have h2 : (" " : String).length = 1 := rfl
  have h3 : (":" : String).length = 1 := rfl
  simp only [formatDT, String.length_append, h1, h2, h3] at hl
  omega

theorem lookupKey_mem {k : ℕ} {e : GpsEntry} :
    ∀ {g : List (ℕ × GpsEntry)}, lookupKey k g = some e → (k, e) ∈ g := by
  intro g
  induction g with
  | nil => intro h; exact absurd h (by simp [lookupKey])
  | cons p r ih =>
    intro h
    obtain ⟨k', e'⟩ := p
    by_cases hk : k' = k
    · subst hk
      rw [show lookupKey k' ((k', e') :: r) = some e' from by rw [lookupKey, if_pos rfl]] at h
      injection h with h
      subst h
      exact List.mem_cons_self _ _
    · rw [show lookupKey k ((k', e') :: r) = lookupKey k r from by rw [lookupKey, if_neg hk]] at h
      exact List.mem_cons_of_mem _ (ih h)

theorem processGps_ok_state {s : GeoState} {v : TagVal} {r : GeoState}
    (h : processGps s v = .ok r) :
    r.date = s.date ∧
      ∃ g q2 q4, v = .gps g ∧ decodeAt g 2 = some q2 ∧ decodeAt g 4 = some q4 ∧
        r = { s with lat := some q2, lon := some q4 } := by
  cases v with
  | gps g =>
    cases h2 : decodeAt g 2 with
    | none => simp [processGps, h2] at h
    | some q2 =>
      cases h4 : decodeAt g 4 with
      | none => simp [processGps, h2, h4] at h
      | some q4 =>
        simp only [processGps, h2, h4] at h
        cases h
        exact ⟨rfl, g, q2, q4, rfl, h2, h4, rfl⟩
  | str d => simp [processGps] at h
  | other => simp [processGps] at h

theorem processGps_error_state {s : GeoState} {v : TagVal} {r : GeoState}
    (h : processGps s v = .error r) :
    r.date = s.date ∧ r.lon = s.lon ∧
      (r = s ∨ ∃ g q2, v = .gps g ∧ decodeAt g 2 = some q2 ∧
        r = { s with lat := some q2 }) := by
  cases v with
  | gps g =>
    cases h2 : decodeAt g 2 with
    | none =>
      simp only [processGps, h2] at h
      cases h
      exact ⟨rfl, rfl, Or.inl rfl⟩
    | some q2 =>
      cases h4 : decodeAt g 4 with
      | none =>
        simp only [processGps, h2, h4] at h
        cases h
        exact ⟨rfl, rfl, Or.inr ⟨g, q2, rfl, h2, rfl⟩⟩
      | some q4 => simp [processGps, h2, h4] at h
  | str d =>
    simp only [processGps] at h
    cases h
    exact ⟨rfl, rfl, Or.inl rfl⟩
  | other =>
    simp only [processGps] at h
    cases h
    exact ⟨rfl, rfl, Or.inl rfl⟩

theorem processDate_lon (s : GeoState) (v : TagVal) : (processDate s v).lon = s.lon := by
  cases v with
  | str d =>
    simp only [processDate]
    cases strptime_exif d <;> rfl
  | gps g => rfl
  | other => rfl

theorem processDate_lat (s : GeoState) (v : TagVal) : (processDate s v).lat = s.lat := by
  cases v with
  | str d =>
    simp only [processDate]
    cases strptime_exif d <;> rfl
  | gps g => rfl
  | other => rfl

theorem processDate_date (s : GeoState) (v : TagVal) :
    (processDate s v).date = s.date ∨ ∃ dt, (processDate s v).date = formatDT dt := by
  cases v with
  | str d =>
    simp only [processDate]
    cases strptime_exif d with
    | none => exact Or.inl rfl
    | some dt => exact Or.inr ⟨dt, rfl⟩
  | gps g => exact Or.inl rfl
  | other => exact Or.inl rfl

theorem processDate_date_of_unparsable {s : GeoState} {v : TagVal}
    (h : ∀ d, v = TagVal.str d → strptime_exif d = none) :
    (processDate s v).date = s.date := by
  cases v with
  | str d => simp [processDate, h d rfl]
  | gps g => rfl
  | other => rfl

/-- One unfolding step of the tag loop. -/
theorem runTags_cons (s : GeoState) (t : ℕ) (v : TagVal) (rest : List (ℕ × TagVal)) :
    runTags s ((t, v) :: rest) =
      if t = 34853 then
        match processGps s v with
        | .ok s' => runTags s' rest
        | .error s' => .error s'
      else if t = 36867 then runTags (processDate s v) rest
      else runTags s rest := rfl

theorem runTags_append (xs ys : List (ℕ × TagVal)) :
    ∀ s, runTags s (xs ++ ys) = (runTags s xs).bind fun t => runTags t ys := by
  induction xs with
  | nil => intro s; rfl
  | cons p rest ih =>
    intro s
    obtain ⟨t, v⟩ := p
    rw [List.cons_append, runTags_cons, runTags_cons]
    by_cases h34 : t = 34853
    · rw [if_pos h34, if_pos h34]
      cases processGps s v with
      | ok s' => exact ih s'
      | error s' => rfl
    · rw [if_neg h34, if_neg h34]
      by_cases h36 : t = 36867
      · rw [if_pos h36, if_pos h36]; exact ih _
      · rw [if_neg h36, if_neg h36]; exact ih s

/-- The local variables `lon` and `lat` hold a value (never `None`) at every
point of the loop, whatever the metadata contains. -/
theorem settle_runTags_coords (xs : List (ℕ × TagVal)) :
    ∀ s : GeoState, s.lon.isSome → s.lat.isSome →
      (settle (runTags s xs)).lon.isSome ∧ (settle (runTags s xs)).lat.isSome := by
  induction xs with
  | nil => exact fun s h1 h2 => ⟨h1, h2⟩
  | cons p rest ih =>
    rintro s h1 h2
    obtain ⟨t, v⟩ := p
    rw [runTags_cons]
    by_cases h34 : t = 34853
    · rw [if_pos h34]
      cases hp : processGps s v with
      | ok s' =>
        obtain ⟨-, g, q2, q4, -, -, -, hr⟩ := processGps_ok_state hp
        subst hr
        exact ih _ (by simp) (by simp)
      | error s' =>
        obtain ⟨-, hlon, hcase⟩ := processGps_error_state hp
        rcases hcase with h | ⟨g, q2, -, -, hr⟩
        · subst h; exact ⟨h1, h2⟩
        · subst hr
          exact ⟨by simpa [settle] using h1, by simp [settle]⟩
    · rw [if_neg h34]
      by_cases h36 : t = 36867
      · rw [if_pos h36]
        refine ih _ ?_ ?_
        · rw [processDate_lon]; exact h1
        · rw [processDate_lat]; exact h2
      · rw [if_neg h36]; exact ih s h1 h2

/-- The `date` variable only ever holds its initial value or a reformatted
parsed timestamp. -/
theorem settle_runTags_date (xs : List (ℕ × TagVal)) :
    ∀ s : GeoState, (settle (runTags s xs)).date = s.date ∨
      ∃ dt, (settle (runTags s xs)).date = formatDT dt := by
  induction xs with
  | nil => exact fun s => Or.inl rfl
  | cons p rest ih =>
    intro s
    obtain ⟨t, v⟩ := p
    rw [runTags_cons]
    by_cases h34 : t = 34853
    · rw [if_pos h34]
      cases hp : processGps s v with
      | ok s' =>
        rcases ih s' with h | h
        · exact Or.inl (h.trans (processGps_ok_state hp).1)
        · exact Or.inr h
      | error s' => exact Or.inl (processGps_error_state hp).1
    · rw [if_neg h34]
      by_cases h36 : t = 36867
      · rw [if_pos h36]
        rcases ih (processDate s v) with h | h
        · rcases processDate_date s v with hd | ⟨dt, hd⟩
          · exact Or.inl (h.trans hd)
          · exact Or.inr ⟨dt, h.trans hd⟩
        · exact Or.inr h
      · rw [if_neg h36]; exact ih s

/-- When every `DateTimeOriginal` entry of the list is unparsable (or not a
string), the `date` variable is left untouched, whatever else happens. -/
theorem settle_runTags_date_fixed (xs : List (ℕ × TagVal)) :
    ∀ s : GeoState,
      (∀ p ∈ xs, p.1 = 36867 → ∀ d, p.2 = TagVal.str d → strptime_exif d = none) →
      (settle (runTags s xs)).date = s.date := by
  induction xs with
  | nil => exact fun s _ => rfl
  | cons p rest ih =>
    intro s hts
    obtain ⟨t, v⟩ := p
    have hrest := fun p hp => hts p (List.mem_cons_of_mem _ hp)
    rw [runTags_cons]
    by_cases h34 : t = 34853
    · rw [if_pos h34]
      cases hp : processGps s v with
      | ok s' => exact (ih s' hrest).trans (processGps_ok_state hp).1
      | error s' => exact (processGps_error_state hp).1
    · rw [if_neg h34]
      by_cases h36 : t = 36867
      · rw [if_pos h36]
        exact (ih _ hrest).trans
          (processDate_date_of_unparsable (hts (t, v) (List.mem_cons_self _ _) h36))
      · rw [if_neg h36]; exact ih s hrest

/-- A tag value on which the `GPSInfo` branch completes without raising:
a GPS mapping whose sub-keys 2 and 4 both decode. -/
def gpsOkB : TagVal → Bool
  | .gps g => (decodeAt g 2).isSome && (decodeAt g 4).isSome
  | _ => false

/-- When every tag-34853 value in the list decodes fully, the loop runs to
completion (no exception escapes). -/
theorem runTags_ok (xs : List (ℕ × TagVal)) :
    ∀ s, (∀ p ∈ xs, p.1 = 34853 → gpsOkB p.2 = true) →
      ∃ r, runTags s xs = .ok r := by
  induction xs with
  | nil => exact fun s _ => ⟨s, rfl⟩
  | cons p rest ih =>
    intro s hok
    obtain ⟨t, v⟩ := p
    have hrest := fun p hp => hok p (List.mem_cons_of_mem _ hp)
    rw [runTags_cons]
    by_cases h34 : t = 34853
    · rw [if_pos h34]
      have hv := hok (t, v) (List.mem_cons_self _ _) h34
      cases v with
      | gps g =>
        simp only [gpsOkB, Bool.and_eq_true, Option.isSome_iff_exists] at hv
        obtain ⟨⟨q2, hq2⟩, ⟨q4, hq4⟩⟩ := hv
        rw [show processGps s (.gps g) = .ok { s with lat := some q2, lon := some q4 } from by
          simp [processGps, hq2, hq4]]
        exact ih _ hrest
      | str d => simp [gpsOkB] at hv
      | other => simp [gpsOkB] at hv
    · rw [if_neg h34]
      by_cases h36 : t = 36867
      · rw [if_pos h36]; exact ih _ hrest
      · rw [if_neg h36]; exact ih s hrest

/-- Non-negativity of one GPS component. -/
def compNonnegB : GpsComp → Bool
  | .num q => decide (0 ≤ q)
  | .bad => true

/-- Non-negativity of the components of one GPS entry. -/
def entryNonnegB : GpsEntry → Bool
  | .triple a b c => compNonnegB a && compNonnegB b && compNonnegB c
  | .scalar _ => true

/-- Non-negativity of every sexagesimal component of a tag value. -/
def tagValNonnegB : TagVal → Bool
  | .gps g => g.all fun p => entryNonnegB p.2
  | _ => true

/-- Non-negativity of every sexagesimal component of the metadata. -/
def exifNonnegB (entries : List (ℕ × TagVal)) : Bool :=
  entries.all fun p => tagValNonnegB p.2

theorem decodeEntry_nonneg {e : GpsEntry} (he : entryNonnegB e = true) {q : ℚ}
    (hq : decodeEntry e = some q) : 0 ≤ q := by
  cases e with
  | scalar d => simp [decodeEntry] at hq
  | triple a b c =>
    cases a with
    | bad => simp [decodeEntry, compInt] at hq
    | num qa =>
      cases b with
      | bad => simp [decodeEntry, compInt] at hq
      | num qb =>
        cases c with
        | bad => simp [decodeEntry, compInt] at hq
        | num qc =>
          simp only [decodeEntry, compInt, Option.some.injEq] at hq
          simp only [entryNonnegB, compNonnegB, Bool.and_eq_true, decide_eq_true_eq] at he
          obtain ⟨⟨ha, hb⟩, hc⟩ := he
          subst hq
          have h1 : (0 : ℚ) ≤ (pyInt qa : ℚ) := Int.cast_nonneg.mpr (pyInt_nonneg ha)
          have h2 : (0 : ℚ) ≤ (pyInt qb : ℚ) := Int.cast_nonneg.mpr (pyInt_nonneg hb)
          have h3 : (0 : ℚ) ≤ (pyInt qc : ℚ) := Int.cast_nonneg.mpr (pyInt_nonneg hc)
          have h60 : (0 : ℚ) ≤ 60 := by norm_num
          have h3600 : (0 : ℚ) ≤ 3600 := by norm_num
          exact add_nonneg (add_nonneg h1 (div_nonneg h2 h60)) (div_nonneg h3 h3600)

theorem decodeAt_nonneg {g : List (ℕ × GpsEntry)}
    (hg : (g.all fun p => entryNonnegB p.2) = true)
    {k : ℕ} {q : ℚ} (h : decodeAt g k = some q) : 0 ≤ q := by
  rw [decodeAt] at h
  cases hl : lookupKey k g with
  | none => rw [hl] at h; simp at h
  | some e =>
    rw [hl] at h
    have he : entryNonnegB e = true := by
      simpa using List.all_eq_true.mp hg _ (lookupKey_mem hl)
    exact decodeEntry_nonneg he h

/-- The GPS branch reads nothing of the block but sub-keys 2 and 4. -/
theorem processGps_congr (s : GeoState) {g1 g2 : List (ℕ × GpsEntry)}
    (h2 : lookupKey 2 g1 = lookupKey 2 g2) (h4 : lookupKey 4 g1 = lookupKey 4 g2) :
    processGps s (.gps g1) = processGps s (.gps g2) := by
  simp only [processGps, decodeAt, h2, h4]

/-- Longitude and latitude stay non-negative through the loop when every
sexagesimal component of the metadata is non-negative. -/
theorem settle_runTags_nonneg (xs : List (ℕ × TagVal)) :
    ∀ s : GeoState, exifNonnegB xs = true →
      (∀ q, s.lon = some q → 0 ≤ q) → (∀ q, s.lat = some q → 0 ≤ q) →
      (∀ q, (settle (runTags s xs)).lon = some q → 0 ≤ q) ∧
      (∀ q, (settle (runTags s xs)).lat = some q → 0 ≤ q) := by
  induction xs with
  | nil => exact fun s _ h1 h2 => ⟨h1, h2⟩
  | cons p rest ih =>
    intro s hnn h1 h2
    obtain ⟨t, v⟩ := p
    have hnn' := by simpa only [exifNonnegB, List.all_cons, Bool.and_eq_true] using hnn
    have hnn_head : tagValNonnegB v = true := hnn'.1
    have hnn_rest : exifNonnegB rest = true := hnn'.2
    rw [runTags_cons]
    by_cases h34 : t = 34853
    · rw [if_pos h34]
      cases hp : processGps s v with
      | ok s' =>
        obtain ⟨-, g, q2, q4, hv, hd2, hd4, hr⟩ := processGps_ok_state hp
        subst hr hv
        refine ih _ hnn_rest ?_ ?_
        · intro q hq
          have : q4 = q := by simpa using hq
          subst this
          exact decodeAt_nonneg (by simpa [tagValNonnegB] using hnn_head) hd4
        · intro q hq
          have : q2 = q := by simpa using hq
          subst this
          exact decodeAt_nonneg (by simpa [tagValNonnegB] using hnn_head) hd2
      | error s' =>
        obtain ⟨-, hlon, hcase⟩ := processGps_error_state hp
        rcases hcase with h | ⟨g, q2, hv, hd2, hr⟩
        · subst h; exact ⟨h1, h2⟩
        · subst hr hv
          refine ⟨fun q hq => h1 q (by simpa [settle] using hq), fun q hq => ?_⟩
          have : q2 = q := by simpa [settle] using hq
          subst this
          exact decodeAt_nonneg (by simpa [tagValNonnegB] using hnn_head) hd2
    · rw [if_neg h34]
      by_cases h36 : t = 36867
      · rw [if_pos h36]
        refine ih _ hnn_rest ?_ ?_
        · rw [processDate_lon]; exact h1
        · rw [processDate_lat]; exact h2
      · rw [if_neg h36]; exact ih s hnn_rest h1 h2

/-- Unfolding of `get_exif_data` on a present metadata dictionary. -/
theorem get_exif_data_image (NOW : String) (entries : List (ℕ × TagVal)) :
    get_exif_data NOW (.image (some entries)) =
      ((settle (runTags ⟨some 0, some 0, NOW⟩ entries)).lon,
       (settle (runTags ⟨some 0, some 0, NOW⟩ entries)).lat,
       (settle (runTags ⟨some 0, some 0, NOW⟩ entries)).date) := rfl

/-- Both coordinate slots of the result always hold a value. -/
theorem get_exif_coords_isSome (NOW : String) (inp : ImageInput) :
    (get_exif_data NOW inp).1.isSome ∧ (get_exif_data NOW inp).2.1.isSome := by
  cases inp with
  | notImage => exact ⟨rfl, rfl⟩
  | image exif =>
    cases exif with
    | none => exact ⟨rfl, rfl⟩
    | some entries => exact settle_runTags_coords entries ⟨some 0, some 0, NOW⟩ rfl rfl

/-- The map branch renders whenever both coordinates hold a value. -/
theorem map_section_spec (NOW : String) (inp : ImageInput) :
    ∀ lon lat : ℚ, (get_exif_data NOW inp).1 = some lon →
      (get_exif_data NOW inp).2.1 = some lat →
      map_section NOW inp = .parcelMap lat lon := by
  intro lon lat h1 h2
  unfold map_section
  rcases hget : get_exif_data NOW inp with ⟨l, la, dd⟩
  rw [hget] at h1 h2
  simp only at h1 h2
  subst h1
  subst h2
  rfl

/-- C1: for every input byte stream (non-image blobs, truncated files and
valid images with no metadata included), `get_exif_data` returns, without
raising, a triple whose longitude and latitude slots hold numeric values
and whose `captured_at` is a non-empty string; a non-image input yields
exactly `(0.0, 0.0, NOW)`, the default date string.  Totality of the Lean
function is the never-raises part: every exception of the source is
absorbed by the `try/except` and ends in the same `return`. -/
theorem C1_total_extraction (d : PDate) (inp : ImageInput) :
    ((get_exif_data (NOW_of d) inp).1.isSome ∧
     (get_exif_data (NOW_of d) inp).2.1.isSome ∧
     (get_exif_data (NOW_of d) inp).2.2 ≠ "") ∧
    get_exif_data (NOW_of d) .notImage = (some 0, some 0, NOW_of d) := by
  refine ⟨?_, rfl⟩
  obtain ⟨h1, h2⟩ := get_exif_coords_isSome (NOW_of d) inp
  refine ⟨h1, h2, ?_⟩
  cases inp with
  | notImage => exact NOW_of_ne_empty d
  | image exif =>
    cases exif with
    | none => exact NOW_of_ne_empty d
    | some entries =>
      rw [get_exif_data_image]
      rcases settle_runTags_date entries ⟨some 0, some 0, NOW_of d⟩ with h | ⟨dt, h⟩
      · rw [h]; exact NOW_of_ne_empty d
      · rw [h]; exact formatDT_ne_empty dt

/-- C9: the coordinates returned by `get_exif_data` are never `None`, so the
caller's guard `lon is not None and lat is not None` always holds, the
`"Aucune donnée de localisation"` warning branch is unreachable, and a map
is rendered even for the `(0.0, 0.0)` no-data default. -/
theorem C9_map_always_rendered (d : PDate) (inp : ImageInput) :
    (∃ lon lat : ℚ, (get_exif_data (NOW_of d) inp).1 = some lon ∧
       (get_exif_data (NOW_of d) inp).2.1 = some lat) ∧
    map_section (NOW_of d) inp ≠ .noLocationWarning ∧
    map_section (NOW_of d) .notImage = .parcelMap 0 0 := by
  obtain ⟨h1, h2⟩ := get_exif_coords_isSome (NOW_of d) inp
  obtain ⟨lon, hlon⟩ := Option.isSome_iff_exists.mp h1
  obtain ⟨lat, hlat⟩ := Option.isSome_iff_exists.mp h2
  refine ⟨⟨lon, lat, hlon, hlat⟩, ?_, rfl⟩
  rw [map_section_spec (NOW_of d) inp lon lat hlon hlat]
  simp

/-- C10: timestamp parsing accepts more than the zero-padded canonical
EXIF shape: `"2024:6:5 1:2:3"` (length 14, not the 19 characters of a
zero-padded `YYYY:MM:DD HH:MM:SS`) still parses, and the result is
reformatted zero-padded as `"2024-06-05 01:02:03"` instead of falling back
to the default date. -/
theorem C10_lenient_timestamp :
    get_exif_data (NOW_of ⟨2025, 1, 1⟩) (.image (some [(36867, .str "2024:6:5 1:2:3")]))
      = (some 0, some 0, "2024-06-05 01:02:03")
    ∧ ("2024:6:5 1:2:3").length ≠ 19 := by
  exact ⟨by decide, by decide⟩

/-- C2: for a metadata input whose GPS block holds integer sexagesimal
triples with degrees in `[0,179]`, minutes in `[0,59]` and seconds in
`[0,59)`, the decoded coordinates agree with `d + m/60 + s/3600` within
`1e-6` (the model computes them exactly); sub-key 2 yields the latitude and
sub-key 4 the longitude. -/
theorem C2_dms_conversion (d : PDate) (d1 m1 s1 d2 m2 s2 : ℕ)
    (hd1 : d1 ≤ 179) (hm1 : m1 ≤ 59) (hs1 : s1 < 59)
    (hd2 : d2 ≤ 179) (hm2 : m2 ≤ 59) (hs2 : s2 < 59) :
    ∃ lonq latq : ℚ,
      get_exif_data (NOW_of d) (.image (some [(34853, .gps
          [(2, .triple (.num d1) (.num m1) (.num s1)),
           (4, .triple (.num d2) (.num m2) (.num s2))])]))
        = (some lonq, some latq, NOW_of d)
      ∧ |latq - ((d1 : ℚ) + (m1 : ℚ) / 60 + (s1 : ℚ) / 3600)| ≤ 1 / 1000000
      ∧ |lonq - ((d2 : ℚ) + (m2 : ℚ) / 60 + (s2 : ℚ) / 3600)| ≤ 1 / 1000000 := by
  refine ⟨(pyInt (d2 : ℚ) : ℚ) + (pyInt (m2 : ℚ) : ℚ) / 60 + (pyInt (s2 : ℚ) : ℚ) / 3600,
          (pyInt (d1 : ℚ) : ℚ) + (pyInt (m1 : ℚ) : ℚ) / 60 + (pyInt (s1 : ℚ) : ℚ) / 3600,
          rfl, ?_, ?_⟩ <;>
  · simp only [pyInt_natCast, Int.cast_natCast, sub_self, abs_zero]
    norm_num

/-- Witness for C2 at the Paris reference point: latitude `(48, 51, 30)`,
longitude `(2, 21, 5)`, the concrete case of the claim. -/
theorem C2_dms_conversion_witness :
    (48 ≤ 179 ∧ 51 ≤ 59 ∧ 30 < 59 ∧ 2 ≤ 179 ∧ 21 ≤ 59 ∧ 5 < 59) ∧
    (∃ lonq latq : ℚ,
      get_exif_data (NOW_of ⟨2024, 1, 1⟩) (.image (some [(34853, .gps
          [(2, .triple (.num ((48 : ℕ) : ℚ)) (.num ((51 : ℕ) : ℚ)) (.num ((30 : ℕ) : ℚ))),
           (4, .triple (.num ((2 : ℕ) : ℚ)) (.num ((21 : ℕ) : ℚ)) (.num ((5 : ℕ) : ℚ)))])]))
        = (some lonq, some latq, NOW_of ⟨2024, 1, 1⟩)
      ∧ |latq - (((48 : ℕ) : ℚ) + ((51 : ℕ) : ℚ) / 60 + ((30 : ℕ) : ℚ) / 3600)| ≤ 1 / 1000000
      ∧ |lonq - (((2 : ℕ) : ℚ) + ((21 : ℕ) : ℚ) / 60 + ((5 : ℕ) : ℚ) / 3600)| ≤ 1 / 1000000) :=
  ⟨by decide,
   C2_dms_conversion ⟨2024, 1, 1⟩ 48 51 30 2 21 5 (by decide) (by decide) (by decide)
     (by decide) (by decide) (by decide)⟩

/-- The GPS branch depends on the block only through the decoded values of
sub-keys 2 and 4. -/
theorem processGps_congr_decode (s : GeoState) {g1 g2 : List (ℕ × GpsEntry)}
    (h2 : decodeAt g1 2 = decodeAt g2 2) (h4 : decodeAt g1 4 = decodeAt g2 4) :
    processGps s (.gps g1) = processGps s (.gps g2) := by
  simp only [processGps, h2, h4]

/-- C8: each sexagesimal component is truncated to an integer (`int()`,
toward zero) before the conversion, so fractional parts are discarded: a
GPS block of arbitrary rational components decodes exactly as the block of
their truncations, and the concrete latitude `(48, 51, 30.9)` converts to
exactly `48 + 51/60 + 30/3600`, which differs from
`48 + 51/60 + 30.9/3600`. -/
theorem C8_components_truncated (d : PDate) (a b c a2 b2 c2 : ℚ) :
    get_exif_data (NOW_of d) (.image (some [(34853, .gps
        [(2, .triple (.num a) (.num b) (.num c)),
         (4, .triple (.num a2) (.num b2) (.num c2))])]))
      = get_exif_data (NOW_of d) (.image (some [(34853, .gps
          [(2, .triple (.num (pyInt a : ℚ)) (.num (pyInt b : ℚ)) (.num (pyInt c : ℚ))),
           (4, .triple (.num (pyInt a2 : ℚ)) (.num (pyInt b2 : ℚ)) (.num (pyInt c2 : ℚ)))])]))
    ∧ (get_exif_data (NOW_of d) (.image (some [(34853, .gps
          [(2, .triple (.num 48) (.num 51) (.num (309 / 10))),
           (4, .triple (.num 2) (.num 21) (.num 5))])]))).2.1
        = some ((48 : ℚ) + 51 / 60 + 30 / 3600)
    ∧ ((48 : ℚ) + 51 / 60 + 30 / 3600) ≠ (48 : ℚ) + 51 / 60 + (309 / 10) / 3600 := by
  refine ⟨?_, ?_, by norm_num⟩
  · have h2 : decodeAt [(2, GpsEntry.triple (.num a) (.num b) (.num c)),
        (4, GpsEntry.triple (.num a2) (.num b2) (.num c2))] 2
        = decodeAt [(2, GpsEntry.triple (.num (pyInt a : ℚ)) (.num (pyInt b : ℚ)) (.num (pyInt c : ℚ))),
            (4, GpsEntry.triple (.num (pyInt a2 : ℚ)) (.num (pyInt b2 : ℚ)) (.num (pyInt c2 : ℚ)))] 2 := by
      simp [decodeAt, lookupKey, decodeEntry, compInt, pyInt_intCast]
    have h4 : decodeAt [(2, GpsEntry.triple (.num a) (.num b) (.num c)),
        (4, GpsEntry.triple (.num a2) (.num b2) (.num c2))] 4
        = decodeAt [(2, GpsEntry.triple (.num (pyInt a : ℚ)) (.num (pyInt b : ℚ)) (.num (pyInt c : ℚ))),
            (4, GpsEntry.triple (.num (pyInt a2 : ℚ)) (.num (pyInt b2 : ℚ)) (.num (pyInt c2 : ℚ)))] 4 := by
      simp [decodeAt, lookupKey, decodeEntry, compInt, pyInt_intCast]
    rw [get_exif_data_image, get_exif_data_image, runTags_cons, runTags_cons,
      if_pos rfl, if_pos rfl, processGps_congr_decode _ h2 h4]
  · have h309 : pyInt ((309 : ℚ) / 10) = 30 := by
      have hn : ((309 : ℚ) / 10).num = 309 := by norm_num
      have hd : ((309 : ℚ) / 10).den = 10 := by norm_num
      rw [pyInt, hn, hd]; decide
    have h48 : pyInt (48 : ℚ) = 48 := by
      have hn : (48 : ℚ).num = 48 := by norm_num
      have hd : (48 : ℚ).den = 1 := by norm_num
      rw [pyInt, hn, hd]; decide
    have h51 : pyInt (51 : ℚ) = 51 := by
      have hn : (51 : ℚ).num = 51 := by norm_num
      have hd : (51 : ℚ).den = 1 := by norm_num
      rw [pyInt, hn, hd]; decide
    rw [get_exif_data_image]
    show some ((pyInt (48 : ℚ) : ℚ) + (pyInt (51 : ℚ) : ℚ) / 60 + (pyInt ((309 : ℚ) / 10) : ℚ) / 3600)
      = some ((48 : ℚ) + 51 / 60 + 30 / 3600)
    rw [h309, h48, h51]
    norm_num

/-- Loop step on a GPS tag whose processing completes. -/
theorem runTags_cons_gps_ok {s s' : GeoState} {v : TagVal}
    (h : processGps s v = .ok s') (rest : List (ℕ × TagVal)) :
    runTags s ((34853, v) :: rest) = runTags s' rest := by
  rw [runTags_cons, if_pos rfl, h]

/-- Loop step on a GPS tag whose processing raises: the loop is aborted. -/
theorem runTags_cons_gps_error {s s' : GeoState} {v : TagVal}
    (h : processGps s v = .error s') (rest : List (ℕ × TagVal)) :
    runTags s ((34853, v) :: rest) = .error s' := by
  rw [runTags_cons, if_pos rfl, h]

/-- C3 counterexample: a GPS block holding sub-key 2 but no sub-key 4
yields a decoded latitude of `48.858333…` alongside the defaulted longitude
`0.0` — the claim "both GPS fields of the result are 0.0" fails: `lat` is
assigned from `value[2]` before `value[4]` raises `KeyError`, and the
`except` clause returns the partially updated variables. -/
theorem C3_counterexample :
    (get_exif_data (NOW_of ⟨2024, 1, 1⟩) (.image (some
        [(34853, .gps [(2, .triple (.num ((48 : ℕ) : ℚ)) (.num ((51 : ℕ) : ℚ))
            (.num ((30 : ℕ) : ℚ)))])]))).1 = some 0
    ∧ (get_exif_data (NOW_of ⟨2024, 1, 1⟩) (.image (some
        [(34853, .gps [(2, .triple (.num ((48 : ℕ) : ℚ)) (.num ((51 : ℕ) : ℚ))
            (.num ((30 : ℕ) : ℚ)))])]))).2.1
      = some ((48 : ℚ) + 51 / 60 + 30 / 3600)
    ∧ ((48 : ℚ) + 51 / 60 + 30 / 3600) ≠ 0 := by
  refine ⟨rfl, ?_, by norm_num⟩
  rw [get_exif_data_image]
  show some ((pyInt ((48 : ℕ) : ℚ) : ℚ) + (pyInt ((51 : ℕ) : ℚ) : ℚ) / 60 +
      (pyInt ((30 : ℕ) : ℚ) : ℚ) / 3600)
    = some ((48 : ℚ) + 51 / 60 + 30 / 3600)
  rw [pyInt_natCast, pyInt_natCast, pyInt_natCast]
  norm_num

/-- C3 (amended): for a metadata input consisting of a GPS block, the GPS
fields pair up as follows — when sub-key 2 fails to decode both fields keep
the default 0.0; when sub-key 2 decodes and sub-key 4 fails the result
carries the decoded latitude together with the defaulted longitude 0.0 (a
partial decode, contrary to the original claim); when both decode the
result carries both values from the same block. -/
theorem C3_gps_pairing (d : PDate) (g : List (ℕ × GpsEntry)) :
    (decodeAt g 2 = none →
      get_exif_data (NOW_of d) (.image (some [(34853, .gps g)]))
        = (some 0, some 0, NOW_of d)) ∧
    (∀ q2, decodeAt g 2 = some q2 → decodeAt g 4 = none →
      get_exif_data (NOW_of d) (.image (some [(34853, .gps g)]))
        = (some 0, some q2, NOW_of d)) ∧
    (∀ q2 q4, decodeAt g 2 = some q2 → decodeAt g 4 = some q4 →
      get_exif_data (NOW_of d) (.image (some [(34853, .gps g)]))
        = (some q4, some q2, NOW_of d)) := by
  refine ⟨fun h2 => ?_, fun q2 h2 h4 => ?_, fun q2 q4 h2 h4 => ?_⟩
  · rw [get_exif_data_image, runTags_cons_gps_error
      (show processGps ⟨some 0, some 0, NOW_of d⟩ (.gps g)
          = .error ⟨some 0, some 0, NOW_of d⟩ from by simp [processGps, h2]) []]
    rfl
  · rw [get_exif_data_image, runTags_cons_gps_error
      (show processGps ⟨some 0, some 0, NOW_of d⟩ (.gps g)
          = .error ⟨some 0, some q2, NOW_of d⟩ from by simp [processGps, h2, h4]) []]
    rfl
  · rw [get_exif_data_image, runTags_cons_gps_ok
      (show processGps ⟨some 0, some 0, NOW_of d⟩ (.gps g)
          = .ok ⟨some q4, some q2, NOW_of d⟩ from by simp [processGps, h2, h4]) []]
    rfl

/-- Witness for the amended C3 at a concrete block with sub-key 2 only. -/
theorem C3_gps_pairing_witness :
    get_exif_data (NOW_of ⟨2024, 1, 1⟩) (.image (some [(34853, .gps
        [(2, .triple (.num ((1 : ℕ) : ℚ)) (.num ((2 : ℕ) : ℚ)) (.num ((3 : ℕ) : ℚ)))])]))
      = (some 0, some ((pyInt ((1 : ℕ) : ℚ) : ℚ) + (pyInt ((2 : ℕ) : ℚ) : ℚ) / 60 +
          (pyInt ((3 : ℕ) : ℚ) : ℚ) / 3600), NOW_of ⟨2024, 1, 1⟩) :=
  (C3_gps_pairing ⟨2024, 1, 1⟩ _).2.1 _ rfl rfl

/-- C4 counterexample: metadata holding a malformed (empty) GPS block
followed by a valid timestamp tag returns the default date, not the parsed
timestamp: the exception raised in the GPS branch aborts the loop before
the timestamp tag is reached, so the two extractions are not independent. -/
theorem C4_counterexample :
    get_exif_data (NOW_of ⟨2025, 1, 1⟩) (.image (some
        [(34853, .gps []), (36867, .str "2024:06:15 10:30:00")]))
      = (some 0, some 0, NOW_of ⟨2025, 1, 1⟩)
    ∧ strptime_exif "2024:06:15 10:30:00" = some ⟨2024, 6, 15, 10, 30, 0⟩
    ∧ NOW_of ⟨2025, 1, 1⟩ ≠ "2024-06-15 10:30:00" :=
  ⟨rfl, by decide, by decide⟩

/-- C4 (amended): independence holds with a caveat on iteration order.  A
valid timestamp tag placed before a malformed GPS block survives alongside
the default GPS fields; valid GPS with an unparsable or absent timestamp
yields the converted GPS values alongside the default date (a timestamp
parse failure never aborts GPS extraction); but a malformed GPS block
aborts the scan, losing any timestamp tag that follows it. -/
theorem C4_independence (d : PDate) (ts : String) (dt : DT) (g : List (ℕ × GpsEntry)) :
    (strptime_exif ts = some dt → decodeAt g 2 = none →
      get_exif_data (NOW_of d) (.image (some [(36867, .str ts), (34853, .gps g)]))
        = (some 0, some 0, formatDT dt)) ∧
    (∀ q2 q4, decodeAt g 2 = some q2 → decodeAt g 4 = some q4 → strptime_exif ts = none →
      get_exif_data (NOW_of d) (.image (some [(34853, .gps g), (36867, .str ts)]))
        = (some q4, some q2, NOW_of d)) ∧
    (∀ q2 q4, decodeAt g 2 = some q2 → decodeAt g 4 = some q4 →
      get_exif_data (NOW_of d) (.image (some [(34853, .gps g)]))
        = (some q4, some q2, NOW_of d)) := by
  refine ⟨fun hts h2 => ?_, fun q2 q4 h2 h4 hts => ?_, fun q2 q4 h2 h4 => ?_⟩
  · rw [get_exif_data_image, runTags_cons, if_neg (by decide), if_pos rfl,
      show processDate ⟨some 0, some 0, NOW_of d⟩ (.str ts)
          = ⟨some 0, some 0, formatDT dt⟩ from by simp [processDate, hts],
      runTags_cons_gps_error
        (show processGps ⟨some 0, some 0, formatDT dt⟩ (.gps g)
          = .error ⟨some 0, some 0, formatDT dt⟩ from by simp [processGps, h2]) []]
    rfl
  · rw [get_exif_data_image, runTags_cons_gps_ok
        (show processGps ⟨some 0, some 0, NOW_of d⟩ (.gps g)
          = .ok ⟨some q4, some q2, NOW_of d⟩ from by simp [processGps, h2, h4])
        [(36867, .str ts)],
      runTags_cons, if_neg (by decide), if_pos rfl,
      show processDate ⟨some q4, some q2, NOW_of d⟩ (.str ts)
          = ⟨some q4, some q2, NOW_of d⟩ from by simp [processDate, hts]]
    rfl
  · rw [get_exif_data_image, runTags_cons_gps_ok
        (show processGps ⟨some 0, some 0, NOW_of d⟩ (.gps g)
          = .ok ⟨some q4, some q2, NOW_of d⟩ from by simp [processGps, h2, h4]) []]
    rfl

/-- Witness for the amended C4: a timestamp before a bad GPS block is kept;
valid GPS with an unparsable timestamp keeps its values and the default
date. -/
theorem C4_independence_witness :
    get_exif_data (NOW_of ⟨2025, 1, 1⟩) (.image (some
        [(36867, .str "2024:06:15 10:30:00"), (34853, .gps [])]))
      = (some 0, some 0, formatDT ⟨2024, 6, 15, 10, 30, 0⟩)
    ∧ get_exif_data (NOW_of ⟨2025, 1, 1⟩) (.image (some
        [(34853, .gps [(2, .triple (.num ((10 : ℕ) : ℚ)) (.num ((20 : ℕ) : ℚ))
              (.num ((30 : ℕ) : ℚ))),
            (4, .triple (.num ((40 : ℕ) : ℚ)) (.num ((50 : ℕ) : ℚ))
              (.num ((0 : ℕ) : ℚ)))]),
          (36867, .str "not-a-date")]))
      = (some ((pyInt ((40 : ℕ) : ℚ) : ℚ) + (pyInt ((50 : ℕ) : ℚ) : ℚ) / 60 +
            (pyInt ((0 : ℕ) : ℚ) : ℚ) / 3600),
         some ((pyInt ((10 : ℕ) : ℚ) : ℚ) + (pyInt ((20 : ℕ) : ℚ) : ℚ) / 60 +
            (pyInt ((30 : ℕ) : ℚ) : ℚ) / 3600),
         NOW_of ⟨2025, 1, 1⟩) :=
  ⟨(C4_independence ⟨2025, 1, 1⟩ "2024:06:15 10:30:00" ⟨2024, 6, 15, 10, 30, 0⟩ []).1
      (by decide) rfl,
   (C4_independence ⟨2025, 1, 1⟩ "not-a-date" ⟨2024, 6, 15, 10, 30, 0⟩ _).2.1
      _ _ rfl rfl (by decide)⟩

/-- Input predicate: some `DateTimeOriginal` entry holds a string that
parses under the EXIF format (the only way the default date is replaced). -/
def hasParsableTs : ImageInput → Bool
  | .image (some entries) => entries.any fun p =>
      p.1 == 36867 && (match p.2 with
        | .str s => (strptime_exif s).isSome
        | _ => false)
  | _ => false

/-- C5 counterexample: the default `captured_at` is the module-load date,
not the wall-clock date at the time of the call.  With the module loaded on
2024-01-01 and the call made on 2024-01-02, a metadata-free input yields
"2024-01-01": the source closes over the constant `NOW` of line 47 and
never reads the clock inside `get_exif_data`. -/
theorem C5_counterexample :
    (get_exif_data_at ⟨2024, 1, 1⟩ ⟨2024, 1, 2⟩ .notImage).2.2 = NOW_of ⟨2024, 1, 1⟩
    ∧ (get_exif_data_at ⟨2024, 1, 1⟩ ⟨2024, 1, 2⟩ .notImage).2.2 ≠ NOW_of ⟨2024, 1, 2⟩ :=
  ⟨rfl, by decide⟩

/-- C5 (amended): for every input in which no parsable capture timestamp
occurs, `captured_at` equals the `NOW` constant captured at module
initialisation, formatted `YYYY-MM-DD`; the extraction is a pure function
of the input plus that module-initialisation date, independent of the
wall-clock date at call time. -/
theorem C5_default_date (moduleDate callDate callDate2 : PDate) (inp : ImageInput)
    (h : hasParsableTs inp = false) :
    (get_exif_data_at moduleDate callDate inp).2.2 = NOW_of moduleDate
    ∧ get_exif_data_at moduleDate callDate inp = get_exif_data_at moduleDate callDate2 inp := by
  refine ⟨?_, rfl⟩
  cases inp with
  | notImage => rfl
  | image exif =>
    cases exif with
    | none => rfl
    | some entries =>
      show (get_exif_data (NOW_of moduleDate) (.image (some entries))).2.2 = NOW_of moduleDate
      rw [get_exif_data_image]
      apply settle_runTags_date_fixed
      intro p hp h36 s' hs'
      simp only [hasParsableTs, List.any_eq_false] at h
      have hcl := h p hp
      cases hss : strptime_exif s' with
      | none => rfl
      | some dt =>
        rw [h36, hs'] at hcl
        simp [hss] at hcl

/-- Witness for the amended C5: an unparsable timestamp tag, module date
2024-01-01, two distinct call dates. -/
theorem C5_default_date_witness :
    hasParsableTs (.image (some [(36867, .str "not-a-date")])) = false
    ∧ ((get_exif_data_at ⟨2024, 1, 1⟩ ⟨2024, 1, 2⟩
          (.image (some [(36867, .str "not-a-date")]))).2.2 = NOW_of ⟨2024, 1, 1⟩
       ∧ get_exif_data_at ⟨2024, 1, 1⟩ ⟨2024, 1, 2⟩ (.image (some [(36867, .str "not-a-date")]))
          = get_exif_data_at ⟨2024, 1, 1⟩ ⟨2024, 1, 3⟩ (.image (some [(36867, .str "not-a-date")]))) :=
  ⟨by decide,
   C5_default_date ⟨2024, 1, 1⟩ ⟨2024, 1, 2⟩ ⟨2024, 1, 3⟩
     (.image (some [(36867, .str "not-a-date")])) (by decide)⟩

/-- C6: no hemisphere sign correction.  Two metadata inputs whose GPS
blocks agree on sub-keys 2 and 4 (in particular, blocks differing only in
the hemisphere-indicator sub-keys 1 and 3, which are never read) produce
identical results; and when every sexagesimal component of the metadata is
non-negative, the returned coordinates are non-negative. -/
theorem C6_hemisphere_ignored (NOW : String) (pre post : List (ℕ × TagVal))
    (g1 g2 : List (ℕ × GpsEntry)) (entries : List (ℕ × TagVal))
    (h2 : lookupKey 2 g1 = lookupKey 2 g2) (h4 : lookupKey 4 g1 = lookupKey 4 g2)
    (hnn : exifNonnegB entries = true) :
    get_exif_data NOW (.image (some (pre ++ (34853, .gps g1) :: post)))
      = get_exif_data NOW (.image (some (pre ++ (34853, .gps g2) :: post)))
    ∧ (∀ q, (get_exif_data NOW (.image (some entries))).1 = some q → 0 ≤ q)
    ∧ (∀ q, (get_exif_data NOW (.image (some entries))).2.1 = some q → 0 ≤ q) := by
  refine ⟨?_, ?_, ?_⟩
  · rw [get_exif_data_image, get_exif_data_image,
      show runTags ⟨some 0, some 0, NOW⟩ (pre ++ (34853, .gps g1) :: post)
          = runTags ⟨some 0, some 0, NOW⟩ (pre ++ (34853, .gps g2) :: post) from by
        rw [runTags_append, runTags_append]
        congr 1
        funext t
        rw [runTags_cons, runTags_cons, if_pos rfl, if_pos rfl, processGps_congr t h2 h4]]
  all_goals {
    have h := settle_runTags_nonneg entries ⟨some 0, some 0, NOW⟩ hnn
      (fun q hq => by
        have h0 : (0 : ℚ) = q := by simpa using hq
        rw [← h0])
      (fun q hq => by
        have h0 : (0 : ℚ) = q := by simpa using hq
        rw [← h0])
    first
      | exact fun q hq => h.1 q hq
      | exact fun q hq => h.2 q hq
  }

/-- Witness for C6: blocks differing only in hemisphere sub-keys 1 and 3
(`"N"` against `"S"`/`"W"`), with non-negative components. -/
theorem C6_hemisphere_ignored_witness :
    (lookupKey 2 [(1, GpsEntry.scalar "N"), (2, .triple (.num ((48 : ℕ) : ℚ))
          (.num ((51 : ℕ) : ℚ)) (.num ((30 : ℕ) : ℚ))),
        (4, .triple (.num ((2 : ℕ) : ℚ)) (.num ((21 : ℕ) : ℚ)) (.num ((5 : ℕ) : ℚ)))]
      = lookupKey 2 [(1, GpsEntry.scalar "S"), (3, GpsEntry.scalar "W"),
        (2, .triple (.num ((48 : ℕ) : ℚ)) (.num ((51 : ℕ) : ℚ)) (.num ((30 : ℕ) : ℚ))),
        (4, .triple (.num ((2 : ℕ) : ℚ)) (.num ((21 : ℕ) : ℚ)) (.num ((5 : ℕ) : ℚ)))])
    ∧ get_exif_data "2024-01-01" (.image (some ([] ++ (34853, .gps
        [(1, GpsEntry.scalar "N"), (2, .triple (.num ((48 : ℕ) : ℚ))
            (.num ((51 : ℕ) : ℚ)) (.num ((30 : ℕ) : ℚ))),
          (4, .triple (.num ((2 : ℕ) : ℚ)) (.num ((21 : ℕ) : ℚ)) (.num ((5 : ℕ) : ℚ)))]) :: [])))
      = get_exif_data "2024-01-01" (.image (some ([] ++ (34853, .gps
        [(1, GpsEntry.scalar "S"), (3, GpsEntry.scalar "W"),
          (2, .triple (.num ((48 : ℕ) : ℚ)) (.num ((51 : ℕ) : ℚ)) (.num ((30 : ℕ) : ℚ))),
          (4, .triple (.num ((2 : ℕ) : ℚ)) (.num ((21 : ℕ) : ℚ)) (.num ((5 : ℕ) : ℚ)))]) :: []))) := by
  refine ⟨rfl, ?_⟩
  exact (C6_hemisphere_ignored "2024-01-01" [] []
      [(1, GpsEntry.scalar "N"), (2, .triple (.num ((48 : ℕ) : ℚ))
          (.num ((51 : ℕ) : ℚ)) (.num ((30 : ℕ) : ℚ))),
        (4, .triple (.num ((2 : ℕ) : ℚ)) (.num ((21 : ℕ) : ℚ)) (.num ((5 : ℕ) : ℚ)))]
      [(1, GpsEntry.scalar "S"), (3, GpsEntry.scalar "W"),
        (2, .triple (.num ((48 : ℕ) : ℚ)) (.num ((51 : ℕ) : ℚ)) (.num ((30 : ℕ) : ℚ))),
        (4, .triple (.num ((2 : ℕ) : ℚ)) (.num ((21 : ℕ) : ℚ)) (.num ((5 : ℕ) : ℚ)))]
      [] rfl rfl (by decide)).1

/-- C7 counterexample: the capture-timestamp tag holds the parseable string
"2024:06:15 10:30:00", yet `captured_at` is the default date, because a
malformed GPS block earlier in iteration order raised and aborted the scan
before the timestamp tag was reached. -/
theorem C7_counterexample :
    (get_exif_data (NOW_of ⟨2025, 1, 1⟩) (.image (some
        [(34853, .gps []), (36867, .str "2024:06:15 10:30:00")]))).2.2
      = NOW_of ⟨2025, 1, 1⟩
    ∧ strptime_exif "2024:06:15 10:30:00" = some ⟨2024, 6, 15, 10, 30, 0⟩
    ∧ NOW_of ⟨2025, 1, 1⟩ ≠ formatDT ⟨2024, 6, 15, 10, 30, 0⟩ :=
  ⟨rfl, by decide, by decide⟩

/-- C7 (amended): for every metadata input whose capture-timestamp tag
(36867) holds a string parseable under the EXIF pattern, provided every
GPS block preceding the timestamp tag in iteration order decodes without
raising (and no second timestamp tag follows, as dictionary keys are
unique), `captured_at` is that timestamp reformatted with hyphenated date
components; in particular "2024:06:15 10:30:00" yields
"2024-06-15 10:30:00" exactly. -/
theorem C7_timestamp_reformat (d : PDate) (pre post : List (ℕ × TagVal))
    (ts : String) (dt : DT)
    (hts : strptime_exif ts = some dt)
    (hpre : ∀ p ∈ pre, p.1 = 34853 → gpsOkB p.2 = true)
    (hpost : ∀ p ∈ post, p.1 ≠ 36867) :
    (get_exif_data (NOW_of d) (.image (some (pre ++ (36867, .str ts) :: post)))).2.2
      = formatDT dt := by
  rw [get_exif_data_image]
  obtain ⟨r, hr⟩ := runTags_ok pre ⟨some 0, some 0, NOW_of d⟩ hpre
  rw [runTags_append, hr]
  show (settle (runTags r ((36867, .str ts) :: post))).date = formatDT dt
  rw [runTags_cons, if_neg (by decide), if_pos rfl,
    show processDate r (.str ts) = { r with date := formatDT dt } from by
      simp [processDate, hts],
    settle_runTags_date_fixed post { r with date := formatDT dt }
      (fun p hp h36 => absurd h36 (hpost p hp))]

/-- Witness for the amended C7 at the concrete timestamp of the claim. -/
theorem C7_timestamp_reformat_witness :
    strptime_exif "2024:06:15 10:30:00" = some ⟨2024, 6, 15, 10, 30, 0⟩
    ∧ (get_exif_data (NOW_of ⟨2025, 1, 1⟩) (.image (some
        ([] ++ (36867, .str "2024:06:15 10:30:00") :: [])))).2.2
      = formatDT ⟨2024, 6, 15, 10, 30, 0⟩
    ∧ formatDT ⟨2024, 6, 15, 10, 30, 0⟩ = "2024-06-15 10:30:00" :=
  ⟨by decide,
   C7_timestamp_reformat ⟨2025, 1, 1⟩ [] [] "2024:06:15 10:30:00" ⟨2024, 6, 15, 10, 30, 0⟩
     (by decide) (fun p hp => absurd hp (List.not_mem_nil p))
     (fun p hp => absurd hp (List.not_mem_nil p)),
   by decide⟩
